import Mathlib

/-!
Shallow embedding of the hyper-json-server adapter (src/server.rs).

The adapter wraps a typed service behind a JSON-over-HTTP endpoint.  The
embedding models:
  * the error_chain taxonomy (ErrorKind; the generated Error displays its kind,
    and error_chain always adds an implicit Msg variant for plain messages);
  * error_to_response, including the serde_json rendering of the
    json! error envelope (compact encoding with string escaping);
  * the blanket JsonService impl (deserialize / serialize).  serde_json is an
    external crate: its from_slice / to_vec primitives appear as parameters
    fromSlice / toVec of a service context.  serialize unwraps to_vec, so a
    to_vec failure is a panic; we model serialize with an Option whose none
    means that panic;
  * JsonServer::call.  Futures are collapsed to values; the body stream after
    concat2 is either the full byte buffer or a transport error string.  The
    function callEv additionally records, in order, the effectful steps taken
    (reading the body stream, invoking the inner service), so that early-exit
    claims are statable; call projects out the response.
Bytes are lists of naturals below 256 produced by a UTF-8 encoder, matching
Rust's String/Vec byte representation.
-/

/-- Byte buffers, as in Rust byte slices and Vec of u8. -/
abbrev Bytes := List Nat

/-- UTF-8 encoding of one character (arithmetic form of the bit layout). -/
def charUtf8 (c : Char) : List Nat :=
  let n := c.toNat
  if n < 0x80 then [n]
  else if n < 0x800 then [0xC0 + n / 0x40, 0x80 + n % 0x40]
  else if n < 0x10000 then
    [0xE0 + n / 0x1000, 0x80 + (n / 0x40) % 0x40, 0x80 + n % 0x40]
  else
    [0xF0 + n / 0x40000, 0x80 + (n / 0x1000) % 0x40, 0x80 + (n / 0x40) % 0x40,
      0x80 + n % 0x40]

/-- UTF-8 bytes of a string: what Rust's str::as_bytes / String::len see. -/
def utf8Bytes (s : String) : Bytes := (s.data.map charUtf8).flatten

/-- Wire response: status, the two headers the adapter writes, and the body. -/
structure Response where
  status : Nat
  contentLength : Option Nat
  contentType : Option String
  body : Bytes
deriving DecidableEq

/-- hyper Response::new() : status 200 Ok, no headers, empty body. -/
def Response.new : Response := ⟨200, none, none, []⟩

def Response.withBody (r : Response) (b : Bytes) : Response := { r with body := b }

def Response.withContentLength (r : Response) (n : Nat) : Response :=
  { r with contentLength := some n }

def Response.withContentType (r : Response) (t : String) : Response :=
  { r with contentType := some t }

def Response.withStatus (r : Response) (s : Nat) : Response := { r with status := s }

/-- The error_chain taxonomy of server.rs.  Msg is the implicit variant
error_chain generates for plain string messages (no explicit kind). -/
inductive ErrorKind where
  | NotFound (obj : String)
  | InternalError (s : String)
  | BadRequest (s : String)
  | MethodNotAllowed
  | Msg (s : String)
deriving DecidableEq

/-- The display strings declared in the error_chain block; the generated Error
type displays as its kind, so format of the error equals this. -/
def ErrorKind.display : ErrorKind → String
  | .NotFound obj => "object " ++ obj ++ " not found"
  | .InternalError s => "internal server error " ++ s
  | .BadRequest s => "bad request " ++ s
  | .MethodNotAllowed => "method not allowed"
  | .Msg s => s

/-- Lowercase hex digit, as serde_json uses in control-character escapes. -/
def hexDigit (n : Nat) : Char :=
  if n < 10 then Char.ofNat (48 + n) else Char.ofNat (87 + n)

/-- serde_json escaping of one character inside a JSON string literal. -/
def escapeChar (c : Char) : String :=
  if c = '"' then "\\\""
  else if c = '\\' then "\\\\"
  else if c.toNat ≥ 0x20 then String.singleton c
  else if c.toNat = 8 then "\\b"
  else if c.toNat = 9 then "\\t"
  else if c.toNat = 10 then "\\n"
  else if c.toNat = 12 then "\\f"
  else if c.toNat = 13 then "\\r"
  else "\\u00" ++ String.singleton (hexDigit (c.toNat / 16)) ++
    String.singleton (hexDigit (c.toNat % 16))

def jsonEscape (s : String) : String := String.join (s.data.map escapeChar)

/-- A JSON string literal for s, quotes included. -/
def jsonStringLit (s : String) : String := "\"" ++ jsonEscape s ++ "\""

/-- serde_json rendering of the envelope built by the json! macro in
error_to_response: a one-field object whose error field holds msg. -/
def jsonErrorObj (msg : String) : String :=
  "\x7b\"error\":" ++ jsonStringLit msg ++ "\x7d"

/-- error_to_response from server.rs.  The match has arms for NotFound,
BadRequest and InternalError only; every other kind, MethodNotAllowed
included, takes the catch-all arm and becomes InternalServerError 500.
The body is the json! envelope around the error's display string; the
content-length is the byte length of that rendered body. -/
def error_to_response (error : ErrorKind) : Response :=
  let sb : Nat × String :=
    match error with
    | .NotFound _ => (404, error.display)
    | .BadRequest _ => (400, error.display)
    | .InternalError _ => (500, error.display)
    | _ => (500, error.display)
  let resp := jsonErrorObj sb.2
  let body := utf8Bytes resp
  let body_len := body.length
  ((((Response.new).withBody body).withContentLength body_len).withContentType
    "application/json").withStatus sb.1

/-- hyper request methods. -/
inductive Method where
  | Options | Get | Post | Put | Delete | Head | Trace | Connect | Patch
deriving DecidableEq

/-- Inbound request.  body is the outcome of concat2 on the body stream:
either the full contiguous byte buffer, or a transport error (its
to_string rendering). -/
structure HttpRequest where
  method : Method
  path : String
  body : Except String Bytes

/-- One instantiation of the blanket JsonService impl: the serde primitives
for the service's Request and Response types, the Into conversion of the
service error into the adapter Error, and the inner service call.
fromSlice returns the serde error's to_string on failure; toVec is none
exactly when serde_json::to_vec would return Err for that value. -/
structure SvcCtx (Req Resp HErr : Type) where
  fromSlice : Bytes → Except String Req
  toVec : Resp → Option Bytes
  intoError : HErr → ErrorKind
  invoke : Req → Except HErr Resp

/-- The decode closure the blanket deserialize returns: serde_json::from_slice,
wrapping a failure into ErrorKind::BadRequest of the error's text. -/
def decodeFn {Req Resp HErr : Type} (S : SvcCtx Req Resp HErr) :
    Bytes → Except ErrorKind Req :=
  fun body =>
    match S.fromSlice body with
    | .ok vec => .ok vec
    | .error e => .error (ErrorKind.BadRequest e)

/-- Blanket JsonService::deserialize: ignores path and method, always Ok. -/
def JsonService.deserialize {Req Resp HErr : Type} (S : SvcCtx Req Resp HErr)
    (_path : String) (_method : Method) :
    Except ErrorKind (Bytes → Except ErrorKind Req) :=
  .ok (decodeFn S)

/-- Blanket JsonService::serialize.  On a handler success it runs
serde_json::to_vec and unwraps: a to_vec failure is a panic, modelled as
none.  On a handler error it converts the error via Into. -/
def JsonService.serialize {Req Resp HErr : Type} (S : SvcCtx Req Resp HErr)
    (resp : Except HErr Resp) : Option (Except ErrorKind Bytes) :=
  match resp with
  | .ok res =>
    match S.toVec res with
    | some b => some (.ok b)
    | none => none
  | .error e => some (.error (S.intoError e))

/-- Effectful pipeline steps, recorded in execution order: consuming the body
stream, and invoking the inner service. -/
inductive Ev where
  | bodyRead
  | invoked
deriving DecidableEq

/-- JsonServer::call, instrumented with the list of effectful steps taken.
Mirrors server.rs: method gate first; then deserialize (whose error branch
exists in call even though the blanket impl never takes it); then concat2
on the body with stream errors mapped to InternalError; then the decode
closure; then the inner service call followed by serialize, building a 200
response on Ok bytes and delegating every Err to error_to_response.  The
or_else on the chain routes body/decode-stage errors to error_to_response
as well.  A none response is the serialize unwrap panic. -/
def callEv {Req Resp HErr : Type} (S : SvcCtx Req Resp HErr) (req : HttpRequest) :
    Option Response × List Ev :=
  if req.method = Method.Post then
    match JsonService.deserialize S req.path req.method with
    | .ok f =>
      let chunk : Except ErrorKind Bytes :=
        match req.body with
        | .ok c => .ok c
        | .error e => .error (ErrorKind.InternalError e)
      match chunk with
      | .error e => (some (error_to_response e), [Ev.bodyRead])
      | .ok c =>
        match f c with
        | .error e => (some (error_to_response e), [Ev.bodyRead])
        | .ok treq =>
          match JsonService.serialize S (S.invoke treq) with
          | some (.ok body) =>
            (some (((((Response.new).withBody body).withContentLength
              body.length).withContentType "application/json").withStatus 200),
              [Ev.bodyRead, Ev.invoked])
          | some (.error e) =>
            (some (error_to_response e), [Ev.bodyRead, Ev.invoked])
          | none => (none, [Ev.bodyRead, Ev.invoked])
    | .error e => (some (error_to_response e), [])
  else
    (some (error_to_response ErrorKind.MethodNotAllowed), [])

/-- JsonServer::call: the response part of the instrumented pipeline. -/
def call {Req Resp HErr : Type} (S : SvcCtx Req Resp HErr) (req : HttpRequest) :
    Option Response :=
  (callEv S req).1

/-- Concrete codec for a service whose Request and Response types are both
Bool: serde_json serializes a bare bool as the texts true / false, and
from_slice accepts exactly those, failing otherwise. -/
def boolToVec (b : Bool) : Option Bytes :=
  some (utf8Bytes (if b then "true" else "false"))

def boolFromSlice (bs : Bytes) : Except String Bool :=
  if bs = utf8Bytes "true" then .ok true
  else if bs = utf8Bytes "false" then .ok false
  else .error "expected value at line 1 column 1"

/-- An echo service over Bool under the blanket impl. -/
def boolSvc : SvcCtx Bool Bool ErrorKind :=
  ⟨boolFromSlice, boolToVec, id, fun b => .ok b⟩

/-- A service whose handler always fails with NotFound. -/
def nfSvc : SvcCtx Bool Bool ErrorKind :=
  ⟨boolFromSlice, boolToVec, id, fun _ => .error (ErrorKind.NotFound "widget")⟩

/-- A legal instantiation of the blanket impl bounds whose Response type has a
Serialize impl that fails at runtime (as a map with non-string keys does
under serde_json), so to_vec returns Err and the unwrap panics. -/
def panicSvc : SvcCtx Bool Bool ErrorKind :=
  ⟨boolFromSlice, fun _ => none, id, fun b => .ok b⟩

def getReq : HttpRequest := ⟨Method.Get, "/", .ok []⟩

def postReqTrue : HttpRequest := ⟨Method.Post, "/", .ok (utf8Bytes "true")⟩

def postReqBad : HttpRequest := ⟨Method.Post, "/", .ok (utf8Bytes "nope")⟩

example : (call boolSvc getReq).map Response.status = some 500 := by decide
example : call boolSvc getReq =
    some ⟨500, some 30, some "application/json",
      utf8Bytes "\x7b\"error\":\"method not allowed\"\x7d"⟩ := by decide
example : call boolSvc postReqTrue =
    some ⟨200, some 4, some "application/json", utf8Bytes "true"⟩ := by decide
example : (call boolSvc postReqBad).map Response.status = some 400 := by decide
example : call panicSvc postReqTrue = none := by decide
example : (call nfSvc postReqTrue).map Response.status = some 404 := by decide

/-- Both headers of an error response are as error_to_response sets them:
the body is the rendered envelope of the display string, content-length is
its byte length, content-type is JSON. -/
theorem error_to_response_fields (e : ErrorKind) :
    (error_to_response e).body = utf8Bytes (jsonErrorObj e.display) ∧
    (error_to_response e).contentLength =
      some (utf8Bytes (jsonErrorObj e.display)).length ∧
    (error_to_response e).contentType = some "application/json" := by
  cases e <;> exact ⟨rfl, rfl, rfl⟩

/-- The status picked by error_to_response, kind by kind. -/
theorem error_to_response_status :
    (∀ s, (error_to_response (ErrorKind.NotFound s)).status = 404) ∧
    (∀ s, (error_to_response (ErrorKind.BadRequest s)).status = 400) ∧
    (∀ s, (error_to_response (ErrorKind.InternalError s)).status = 500) ∧
    (error_to_response ErrorKind.MethodNotAllowed).status = 500 ∧
    (∀ s, (error_to_response (ErrorKind.Msg s)).status = 500) :=
  ⟨fun _ => rfl, fun _ => rfl, fun _ => rfl, rfl, fun _ => rfl⟩

/-- Every error response's status is 400, 404 or 500. -/
theorem error_to_response_status_cases (e : ErrorKind) :
    (error_to_response e).status = 400 ∨ (error_to_response e).status = 404 ∨
      (error_to_response e).status = 500 := by
  cases e with
  | NotFound s => exact Or.inr (Or.inl rfl)
  | BadRequest s => exact Or.inl rfl
  | _ => exact Or.inr (Or.inr rfl)

/-- Successful pipeline run: POST, body stream ok, decode ok, handler ok,
to_vec ok.  The response is the 200 success response over the encoded
bytes, and both effectful steps happened in order. -/
theorem call_success {Req Resp HErr : Type} (S : SvcCtx Req Resp HErr)
    (req : HttpRequest) (c : Bytes) (treq : Req) (r : Resp) (b : Bytes)
    (hm : req.method = Method.Post) (hb : req.body = Except.ok c)
    (hd : S.fromSlice c = Except.ok treq) (hi : S.invoke treq = Except.ok r)
    (ht : S.toVec r = some b) :
    call S req = some ⟨200, some b.length, some "application/json", b⟩ ∧
    (callEv S req).2 = [Ev.bodyRead, Ev.invoked] := by
  simp only [call, callEv, JsonService.deserialize, JsonService.serialize,
    decodeFn, hm, hb, hd, hi, ht, if_true, eq_self_iff_true]
  exact ⟨rfl, trivial⟩

/-- Pipeline run where the handler fails: the response is the error response
of the converted handler error. -/
theorem call_handler_err {Req Resp HErr : Type} (S : SvcCtx Req Resp HErr)
    (req : HttpRequest) (c : Bytes) (treq : Req) (e : HErr)
    (hm : req.method = Method.Post) (hb : req.body = Except.ok c)
    (hd : S.fromSlice c = Except.ok treq) (hi : S.invoke treq = Except.error e) :
    call S req = some (error_to_response (S.intoError e)) ∧
    (callEv S req).2 = [Ev.bodyRead, Ev.invoked] := by
  simp only [call, callEv, JsonService.deserialize, JsonService.serialize,
    decodeFn, hm, hb, hd, hi, if_true, eq_self_iff_true]
  refine ⟨?_, ?_⟩ <;> trivial

/-- Pipeline run where the handler succeeds but to_vec fails: the unwrap in
serialize panics instead of producing a response. -/
theorem call_panic {Req Resp HErr : Type} (S : SvcCtx Req Resp HErr)
    (req : HttpRequest) (c : Bytes) (treq : Req) (r : Resp)
    (hm : req.method = Method.Post) (hb : req.body = Except.ok c)
    (hd : S.fromSlice c = Except.ok treq) (hi : S.invoke treq = Except.ok r)
    (ht : S.toVec r = none) :
    call S req = none ∧ (callEv S req).2 = [Ev.bodyRead, Ev.invoked] := by
  simp only [call, callEv, JsonService.deserialize, JsonService.serialize,
    decodeFn, hm, hb, hd, hi, ht, if_true, eq_self_iff_true]
  refine ⟨?_, ?_⟩ <;> trivial

/-- Pipeline run where the body decodes to no request: the response is the
BadRequest error response over the serde error text, and the handler was
not invoked. -/
theorem call_decode_err {Req Resp HErr : Type} (S : SvcCtx Req Resp HErr)
    (req : HttpRequest) (c : Bytes) (e : String)
    (hm : req.method = Method.Post) (hb : req.body = Except.ok c)
    (hd : S.fromSlice c = Except.error e) :
    call S req = some (error_to_response (ErrorKind.BadRequest e)) ∧
    (callEv S req).2 = [Ev.bodyRead] := by
  simp only [call, callEv, JsonService.deserialize, decodeFn, hm, hb, hd,
    if_true, eq_self_iff_true]
  refine ⟨?_, ?_⟩ <;> trivial

/-- Pipeline run where the body stream fails: the response is the
InternalError error response over the transport error text. -/
theorem call_stream_err {Req Resp HErr : Type} (S : SvcCtx Req Resp HErr)
    (req : HttpRequest) (e : String)
    (hm : req.method = Method.Post) (hb : req.body = Except.error e) :
    call S req = some (error_to_response (ErrorKind.InternalError e)) ∧
    (callEv S req).2 = [Ev.bodyRead] := by
  simp only [call, callEv, JsonService.deserialize, hm, hb, if_true,
    eq_self_iff_true]
  refine ⟨?_, ?_⟩ <;> trivial

/-- Non-POST run: the method gate answers immediately, no step happened. -/
theorem call_not_post {Req Resp HErr : Type} (S : SvcCtx Req Resp HErr)
    (req : HttpRequest) (hm : req.method ≠ Method.Post) :
    call S req = some (error_to_response ErrorKind.MethodNotAllowed) ∧
    (callEv S req).2 = [] := by
  simp only [call, callEv, if_neg hm]
  refine ⟨?_, ?_⟩ <;> trivial

/-- Every response call emits is either an error response or the 200 success
response over some byte vector. -/
theorem call_cases {Req Resp HErr : Type} (S : SvcCtx Req Resp HErr)
    (req : HttpRequest) (resp : Response) (h : call S req = some resp) :
    (∃ e, resp = error_to_response e) ∨
    (∃ b : Bytes, resp = ⟨200, some b.length, some "application/json", b⟩) := by
  by_cases hm : req.method = Method.Post
  · rcases hb : req.body with e | c
    · rw [(call_stream_err S req e hm hb).1] at h
      exact Or.inl ⟨_, (Option.some.inj h).symm⟩
    · rcases hd : S.fromSlice c with e | treq
      · rw [(call_decode_err S req c e hm hb hd).1] at h
        exact Or.inl ⟨_, (Option.some.inj h).symm⟩
      · rcases hi : S.invoke treq with e | r
        · rw [(call_handler_err S req c treq e hm hb hd hi).1] at h
          exact Or.inl ⟨_, (Option.some.inj h).symm⟩
        · rcases ht : S.toVec r with _ | b
          · rw [(call_panic S req c treq r hm hb hd hi ht).1] at h
            exact absurd h (by simp)
          · rw [(call_success S req c treq r b hm hb hd hi ht).1] at h
            exact Or.inr ⟨b, (Option.some.inj h).symm⟩
  · rw [(call_not_post S req hm).1] at h
    exact Or.inl ⟨_, (Option.some.inj h).symm⟩

/-- C1: the claim says a non-POST request is answered with status 405 and
body exactly the JSON envelope carrying "method not allowed".  The body half
holds, but the status half fails on the code: error_to_response has no arm
for ErrorKind.MethodNotAllowed, so the catch-all arm maps it to 500.  This
theorem evaluates call of the blanket impl at a concrete GET request: the
response has status 500, not 405, with exactly that body. -/
theorem c1_method_gate_eval :
    call boolSvc getReq =
      some ⟨500, some 30, some "application/json",
        utf8Bytes "\x7b\"error\":\"method not allowed\"\x7d"⟩ := by
  decide

/-- C2 counterexample: the adapter core is not panic-free.  panicSvc is a
legal instantiation of the blanket impl bounds (its Response type's
serialization fails at runtime, as serde_json does on a map with non-string
keys); on a well-formed POST the handler succeeds, serialize unwraps the
failed encoding, and call produces no response at all. -/
theorem c2_counterexample : call panicSvc postReqTrue = none := by
  decide

/-- C2 (amended): error_to_response is total — every ErrorKind is mapped to
one of the statuses 400, 404 or 500 — and whenever the JSON encoding of every
handler success value succeeds, call turns every pipeline outcome (stream
error, decode error, handler success or failure) into exactly one response;
the unwrap in serialize is the single panic site. -/
theorem c2_no_panic_when_encodable {Req Resp HErr : Type}
    (S : SvcCtx Req Resp HErr) (req : HttpRequest)
    (henc : ∀ r : Resp, (S.toVec r).isSome) :
    (∀ e : ErrorKind, (error_to_response e).status = 400 ∨
      (error_to_response e).status = 404 ∨ (error_to_response e).status = 500) ∧
    (call S req).isSome := by
  refine ⟨error_to_response_status_cases, ?_⟩
  by_cases hm : req.method = Method.Post
  · rcases hb : req.body with e | c
    · rw [(call_stream_err S req e hm hb).1]; rfl
    · rcases hd : S.fromSlice c with e | treq
      · rw [(call_decode_err S req c e hm hb hd).1]; rfl
      · rcases hi : S.invoke treq with e | r
        · rw [(call_handler_err S req c treq e hm hb hd hi).1]; rfl
        · rcases ht : S.toVec r with _ | b
          · exact absurd (henc r) (by rw [ht]; simp)
          · rw [(call_success S req c treq r b hm hb hd hi ht).1]; rfl
  · rw [(call_not_post S req hm).1]; rfl

/-- C2 witness: on the concrete Bool service, whose codec always encodes,
the pipeline always answers. -/
theorem c2_witness : (call boolSvc postReqTrue).isSome :=
  (c2_no_panic_when_encodable boolSvc postReqTrue (by decide)).2

/-- C3: error_to_response maps NotFound to 404, BadRequest to 400,
InternalError to 500, and an error not matching a known kind (the implicit
Msg variant) to 500 with its display text in the error field; and on every
valid POST whose handler fails with an error converting to NotFound, the
response status is 404. -/
theorem c3_error_status_mapping :
    (∀ s, (error_to_response (ErrorKind.NotFound s)).status = 404) ∧
    (∀ s, (error_to_response (ErrorKind.BadRequest s)).status = 400) ∧
    (∀ s, (error_to_response (ErrorKind.InternalError s)).status = 500) ∧
    (∀ s, (error_to_response (ErrorKind.Msg s)).status = 500 ∧
      (error_to_response (ErrorKind.Msg s)).body = utf8Bytes (jsonErrorObj s)) ∧
    (∀ (Req Resp HErr : Type) (S : SvcCtx Req Resp HErr) (req : HttpRequest)
      (c : Bytes) (treq : Req) (e : HErr) (s : String),
      req.method = Method.Post → req.body = Except.ok c →
      S.fromSlice c = Except.ok treq → S.invoke treq = Except.error e →
      S.intoError e = ErrorKind.NotFound s →
      (call S req).map Response.status = some 404) := by
  refine ⟨error_to_response_status.1, error_to_response_status.2.1,
    error_to_response_status.2.2.1, fun s => ⟨rfl, rfl⟩, ?_⟩
  intro Req Resp HErr S req c treq e s hm hb hd hi hconv
  rw [(call_handler_err S req c treq e hm hb hd hi).1, hconv]
  rfl

/-- C3 witness: the Bool service whose handler always fails with
NotFound "widget" answers a valid POST with status 404. -/
theorem c3_witness : (call nfSvc postReqTrue).map Response.status = some 404 :=
  c3_error_status_mapping.2.2.2.2 Bool Bool ErrorKind nfSvc postReqTrue
    (utf8Bytes "true") true (ErrorKind.NotFound "widget") "widget"
    rfl rfl rfl rfl rfl

/-- C4: a POST whose body bytes do not decode to the Request type yields
status 400, and the error field of the body is the BadRequest display,
namely the text "bad request " followed by the decode failure's description
(which therefore contains that description). -/
theorem c4_bad_request {Req Resp HErr : Type} (S : SvcCtx Req Resp HErr)
    (req : HttpRequest) (c : Bytes) (e : String)
    (hm : req.method = Method.Post) (hb : req.body = Except.ok c)
    (hd : S.fromSlice c = Except.error e) :
    (call S req).map Response.status = some 400 ∧
    (call S req).map Response.body =
      some (utf8Bytes (jsonErrorObj ("bad request " ++ e))) := by
  rw [(call_decode_err S req c e hm hb hd).1]
  exact ⟨rfl, rfl⟩

/-- C4 witness: the concrete POST whose body is the non-JSON text nope. -/
theorem c4_witness :
    (call boolSvc postReqBad).map Response.status = some 400 ∧
    (call boolSvc postReqBad).map Response.body =
      some (utf8Bytes (jsonErrorObj
        ("bad request " ++ "expected value at line 1 column 1"))) :=
  c4_bad_request boolSvc postReqBad (utf8Bytes "nope")
    "expected value at line 1 column 1" rfl rfl rfl

/-- C5: on a valid POST whose handler succeeds and whose response value
encodes to bytes b, the response is exactly status 200, content-type JSON,
body b, and content-length the byte length of b. -/
theorem c5_success_response {Req Resp HErr : Type} (S : SvcCtx Req Resp HErr)
    (req : HttpRequest) (c : Bytes) (treq : Req) (r : Resp) (b : Bytes)
    (hm : req.method = Method.Post) (hb : req.body = Except.ok c)
    (hd : S.fromSlice c = Except.ok treq) (hi : S.invoke treq = Except.ok r)
    (ht : S.toVec r = some b) :
    call S req = some ⟨200, some b.length, some "application/json", b⟩ :=
  (call_success S req c treq r b hm hb hd hi ht).1

/-- C5 witness: the Bool echo service on a concrete valid POST. -/
theorem c5_witness :
    call boolSvc postReqTrue =
      some ⟨200, some (utf8Bytes "true").length, some "application/json",
        utf8Bytes "true"⟩ :=
  c5_success_response boolSvc postReqTrue (utf8Bytes "true") true true
    (utf8Bytes "true") rfl rfl rfl rfl rfl

/-- C6: round-trip through the success path.  For a service whose Request and
Response types coincide and whose serde codec satisfies the round-trip law
(decoding the encoder's output returns the value — serde_json is an external
collaborator the spec treats as a correct given primitive), the adapter's own
decode function applied to the bytes of the emitted success response yields
back the handler's original output: the pipeline transports the encoded
bytes unchanged into the response body. -/
theorem c6_roundtrip (T HErr : Type) (S : SvcCtx T T HErr) (req : HttpRequest)
    (c : Bytes) (treq r : T) (b : Bytes) (resp : Response)
    (hrt : ∀ (v : T) (bs : Bytes), S.toVec v = some bs →
      S.fromSlice bs = Except.ok v)
    (hm : req.method = Method.Post) (hb : req.body = Except.ok c)
    (hd : S.fromSlice c = Except.ok treq) (hi : S.invoke treq = Except.ok r)
    (ht : S.toVec r = some b) (hresp : call S req = some resp) :
    decodeFn S resp.body = Except.ok r := by
  rw [(call_success S req c treq r b hm hb hd hi ht).1] at hresp
  have he := Option.some.inj hresp
  subst he
  show decodeFn S b = Except.ok r
  unfold decodeFn
  rw [hrt r b ht]

/-- C6 witness: on the Bool echo service with its honest JSON codec for
bare booleans, decoding the success response body of the concrete POST
reproduces the handler output. -/
theorem c6_witness : decodeFn boolSvc (utf8Bytes "true") = Except.ok true :=
  c6_roundtrip Bool ErrorKind boolSvc postReqTrue (utf8Bytes "true") true true
    (utf8Bytes "true")
    ⟨200, some (utf8Bytes "true").length, some "application/json",
      utf8Bytes "true"⟩
    (fun v bs hv => by
      have hb2 := Option.some.inj hv
      subst hb2
      cases v <;> rfl)
    rfl rfl rfl rfl rfl rfl

/-- C7: every response the adapter emits carries a content-length equal to
its body's byte length, a JSON content-type, and a status among the mapped
codes and 200. -/
theorem c7_response_invariants {Req Resp HErr : Type} (S : SvcCtx Req Resp HErr)
    (req : HttpRequest) (resp : Response) (h : call S req = some resp) :
    resp.contentLength = some resp.body.length ∧
    resp.contentType = some "application/json" ∧
    (resp.status = 200 ∨ resp.status = 400 ∨ resp.status = 404 ∨
      resp.status = 405 ∨ resp.status = 500) := by
  rcases call_cases S req resp h with ⟨e, he⟩ | ⟨b, hb2⟩
  · subst he
    obtain ⟨hbody, hCL, hCT⟩ := error_to_response_fields e
    refine ⟨by rw [hbody]; exact hCL, hCT, ?_⟩
    rcases error_to_response_status_cases e with h4 | h4 | h4
    · exact Or.inr (Or.inl h4)
    · exact Or.inr (Or.inr (Or.inl h4))
    · exact Or.inr (Or.inr (Or.inr (Or.inr h4)))
  · subst hb2
    exact ⟨rfl, rfl, Or.inl rfl⟩

/-- C7 witness: the invariants at the concrete response to a GET request. -/
theorem c7_witness :
    (error_to_response ErrorKind.MethodNotAllowed).contentLength =
      some (error_to_response ErrorKind.MethodNotAllowed).body.length ∧
    (error_to_response ErrorKind.MethodNotAllowed).contentType =
      some "application/json" ∧
    ((error_to_response ErrorKind.MethodNotAllowed).status = 200 ∨
      (error_to_response ErrorKind.MethodNotAllowed).status = 400 ∨
      (error_to_response ErrorKind.MethodNotAllowed).status = 404 ∨
      (error_to_response ErrorKind.MethodNotAllowed).status = 405 ∨
      (error_to_response ErrorKind.MethodNotAllowed).status = 500) :=
  c7_response_invariants boolSvc getReq
    (error_to_response ErrorKind.MethodNotAllowed) rfl

/-- C8: pipeline ordering and early exit.  On a non-POST request the body
stream is never consumed and the handler is never invoked; on a POST whose
body fails to decode the handler is never invoked. -/
theorem c8_pipeline_early_exit :
    (∀ (Req Resp HErr : Type) (S : SvcCtx Req Resp HErr) (req : HttpRequest),
      req.method ≠ Method.Post →
      Ev.bodyRead ∉ (callEv S req).2 ∧ Ev.invoked ∉ (callEv S req).2) ∧
    (∀ (Req Resp HErr : Type) (S : SvcCtx Req Resp HErr) (req : HttpRequest)
      (c : Bytes) (e : String),
      req.method = Method.Post → req.body = Except.ok c →
      S.fromSlice c = Except.error e →
      Ev.invoked ∉ (callEv S req).2) := by
  constructor
  · intro Req Resp HErr S req hm
    rw [(call_not_post S req hm).2]
    exact ⟨by simp, by simp⟩
  · intro Req Resp HErr S req c e hm hb hd
    rw [(call_decode_err S req c e hm hb hd).2]
    decide

/-- C8 witness: the concrete GET request and the concrete undecodable POST. -/
theorem c8_witness :
    (Ev.bodyRead ∉ (callEv boolSvc getReq).2 ∧
      Ev.invoked ∉ (callEv boolSvc getReq).2) ∧
    Ev.invoked ∉ (callEv boolSvc postReqBad).2 :=
  ⟨c8_pipeline_early_exit.1 Bool Bool ErrorKind boolSvc getReq (by decide),
    c8_pipeline_early_exit.2 Bool Bool ErrorKind boolSvc postReqBad
      (utf8Bytes "nope") "expected value at line 1 column 1" rfl rfl rfl⟩

/-- C9: the decode function is deterministic and carries no per-request
state: whichever path and method the two deserialize calls were given, the
functions they return answer identically on the same byte buffer (they are
the one pure serde-backed function, selected once per adapter). -/
theorem c9_decode_deterministic {Req Resp HErr : Type}
    (S : SvcCtx Req Resp HErr) (p₁ p₂ : String) (m₁ m₂ : Method) (b : Bytes)
    (f₁ f₂ : Bytes → Except ErrorKind Req)
    (h₁ : JsonService.deserialize S p₁ m₁ = Except.ok f₁)
    (h₂ : JsonService.deserialize S p₂ m₂ = Except.ok f₂) :
    f₁ b = f₂ b := by
  have e₁ : decodeFn S = f₁ := Except.ok.inj h₁
  have e₂ : decodeFn S = f₂ := Except.ok.inj h₂
  rw [← e₁, ← e₂]

/-- C9 witness: two deserialize calls with different paths and methods on a
concrete buffer. -/
theorem c9_witness :
    decodeFn boolSvc (utf8Bytes "nope") = decodeFn boolSvc (utf8Bytes "nope") :=
  c9_decode_deterministic boolSvc "/a" "/b" Method.Get Method.Post
    (utf8Bytes "nope") (decodeFn boolSvc) (decodeFn boolSvc) rfl rfl

/-- C10: the blanket deserialize ignores its path and method arguments and
always returns Ok with the same decode function, so the pre-body-read error
branch of call is unreachable and every POST request reaches body
acquisition. -/
theorem c10_deserialize_ignores_args :
    (∀ (Req Resp HErr : Type) (S : SvcCtx Req Resp HErr) (p₁ p₂ : String)
      (m₁ m₂ : Method),
      JsonService.deserialize S p₁ m₁ = Except.ok (decodeFn S) ∧
      JsonService.deserialize S p₁ m₁ = JsonService.deserialize S p₂ m₂) ∧
    (∀ (Req Resp HErr : Type) (S : SvcCtx Req Resp HErr) (req : HttpRequest),
      req.method = Method.Post → Ev.bodyRead ∈ (callEv S req).2) := by
  constructor
  · intro Req Resp HErr S p₁ p₂ m₁ m₂
    exact ⟨rfl, rfl⟩
  · intro Req Resp HErr S req hm
    rcases hb : req.body with e | c
    · rw [(call_stream_err S req e hm hb).2]; simp
    · rcases hd : S.fromSlice c with e | treq
      · rw [(call_decode_err S req c e hm hb hd).2]; simp
      · rcases hi : S.invoke treq with e | r
        · rw [(call_handler_err S req c treq e hm hb hd hi).2]; simp
        · rcases ht : S.toVec r with _ | b
          · rw [(call_panic S req c treq r hm hb hd hi ht).2]; simp
          · rw [(call_success S req c treq r b hm hb hd hi ht).2]; simp

/-- C10 witness: concrete deserialize calls, and a concrete POST that reads
its body. -/
theorem c10_witness :
    (JsonService.deserialize boolSvc "/" Method.Get =
        Except.ok (decodeFn boolSvc) ∧
      JsonService.deserialize boolSvc "/" Method.Get =
        JsonService.deserialize boolSvc "/x" Method.Post) ∧
    Ev.bodyRead ∈ (callEv boolSvc postReqTrue).2 :=
  ⟨(c10_deserialize_ignores_args.1 Bool Bool ErrorKind boolSvc "/" "/x"
      Method.Get Method.Post),
    c10_deserialize_ignores_args.2 Bool Bool ErrorKind boolSvc postReqTrue rfl⟩
